import Mathlib

/-!
Verification of the persistent-shell session engine
(`mcp_persistent_shell`): a shallow embedding of the shell process
wrapper (`shell/process.py`), the session store and manager
(`session/store.py`, `session/manager.py`), the security validator
(`security/validator.py`) and the `execute_command` tool handler
(`tools/execute_command.py`), together with theorems settling the
specified behavioural claims.

The pexpect interaction inside one `execute` call is abstracted as an
`ExecEvent`: the outcome of the blocking marker wait (marker matched
with the accumulated output and the exit-code probe token, a
`pexpect.TIMEOUT`, a `pexpect.EOF`, or any other exception escaping the
worker thread).  Wall-clock time is passed explicitly (`now` = time of
the call, `el` = elapsed seconds of the call).
-/

namespace McpShell

/-- Mirrors the `status` literal of `CommandResult` and the tool-handler
dicts: the Python code only ever produces the strings `"success"` and
`"error"`, which we keep as plain strings. -/
abbrev Status := String

/-- Embedding of `models.CommandResult` (the `security_info` field is
never set on any path modelled here and is omitted). `execution_time`
is in whole seconds. -/
structure CommandResult where
  status : Status
  exit_code : Int
  stdout : String
  stderr : String
  command : String
  execution_time : Nat
  deriving DecidableEq, Repr

/-- State of one `ShellProcess` wrapper: `process = none` models
`self.process is None`; `process = some b` models a held pexpect handle
whose `isalive()` currently returns `b`.  `working_dir` and
`last_activity` mirror the fields of the same names. -/
structure ShellState where
  process : Option Bool
  working_dir : String
  last_activity : Nat
  deriving DecidableEq, Repr

/-- Outcome of the blocking pexpect interaction of one `execute` call:
the command was sent, then either both `expect(prompt)` waits succeeded
(`completed`, carrying `process.before` of the first wait and the raw
exit-code token of the second), or a wait raised `pexpect.TIMEOUT`
(`timedOut`, carrying `process.before` at that moment, with the child
still running), or a wait raised `pexpect.EOF` (the child died), or some
other exception escaped the worker thread (`threw`). -/
inductive ExecEvent where
  | completed (output : String) (exitToken : String)
  | timedOut (pending : String)
  | eof
  | threw (msg : String)
  deriving DecidableEq, Repr

/-- Python `s.strip()`: drop leading and trailing whitespace.  Written
over the character list so that it evaluates by structural
recursion. -/
def pyStrip (s : String) : String :=
  ⟨((s.data.dropWhile Char.isWhitespace).reverse.dropWhile
      Char.isWhitespace).reverse⟩

/-- Accumulate a decimal digit run; fails on the first non-digit. -/
def digitsToNat : List Char → Nat → Option Nat
  | [], acc => some acc
  | c :: cs, acc =>
      if c.isDigit then digitsToNat cs (acc * 10 + (c.toNat - '0'.toNat))
      else none

/-- Python `int(s)`: optional surrounding whitespace, optional single
sign, then at least one decimal digit; raises `ValueError` otherwise
(modelled as `none`). -/
def pyParseInt (s : String) : Option Int :=
  match (pyStrip s).data with
  | [] => none
  | '-' :: ds =>
      if ds.isEmpty then none
      else (digitsToNat ds 0).map (fun n => -(n : Int))
  | '+' :: ds =>
      if ds.isEmpty then none
      else (digitsToNat ds 0).map (fun n => (n : Int))
  | ds => (digitsToNat ds 0).map (fun n => (n : Int))

/-- Decidable equality on `Except`, so that concrete runs of the
embedded operations can be checked by `decide`. -/
instance {ε α : Type} [DecidableEq ε] [DecidableEq α] :
    DecidableEq (Except ε α) := fun a b =>
  match a, b with
  | Except.ok x, Except.ok y =>
      if h : x = y then isTrue (by rw [h])
      else isFalse (fun hc => h (Except.ok.inj hc))
  | Except.error x, Except.error y =>
      if h : x = y then isTrue (by rw [h])
      else isFalse (fun hc => h (Except.error.inj hc))
  | Except.ok _, Except.error _ => isFalse (fun hc => Except.noConfusion hc)
  | Except.error _, Except.ok _ => isFalse (fun hc => Except.noConfusion hc)

namespace ShellProcess

/-- Embeds `ShellProcess.is_alive`: `self.process is not None and
self.process.isalive()`. -/
def is_alive (s : ShellState) : Bool :=
  match s.process with
  | some true => true
  | _ => false

/-- Embeds `ShellProcess.idle_time`: `time.time() - self.last_activity`. -/
def idle_time (now : Nat) (s : ShellState) : Nat :=
  now - s.last_activity

/-- Embeds `ShellProcess.terminate`: if the process is present and alive, exit
it (gracefully, then forcibly) and set `self.process = None`; otherwise
do nothing. -/
def terminate (s : ShellState) : ShellState :=
  if is_alive s then { s with process := none } else s

/-- Embeds `ShellProcess.execute(command, timeout)`.  Raises `RuntimeError`
(modelled as `Except.error`) when the process is absent or dead;
otherwise dispatches on the pexpect outcome exactly as
`_execute_command` does, then builds the `CommandResult` (deriving
`status` from the exit code and stripping stdout) and updates
`last_activity` on every non-raising path. -/
def execute (s : ShellState) (command : String) (timeout : Nat)
    (ev : ExecEvent) (now el : Nat) :
    Except String (CommandResult × ShellState) :=
  if is_alive s = false then
    Except.error "Shell process is not running"
  else
    match ev with
    | ExecEvent.completed output exitToken =>
        let exit_code : Int := (pyParseInt exitToken).getD 0
        Except.ok
          (⟨if exit_code = 0 then "success" else "error",
            exit_code, pyStrip output, "", command, el⟩,
           { s with last_activity := now + el })
    | ExecEvent.timedOut pending =>
        Except.ok
          (⟨"error", -1, pyStrip pending,
            "Command timed out after " ++ toString timeout ++ "s",
            command, el⟩,
           { s with last_activity := now + el })
    | ExecEvent.eof =>
        Except.ok
          (⟨"error", -1, "", "Shell process terminated", command, el⟩,
           { s with process := some false, last_activity := now + el })
    | ExecEvent.threw msg =>
        Except.ok (⟨"error", -1, "", msg, command, el⟩, s)

/-- Embeds `ShellProcess.get_cwd`: probe with `execute("pwd", timeout=5)`;
return the stripped stdout on success, the recorded initial working
directory on a non-success result.  A `RuntimeError` raised by
`execute` itself is not caught and propagates. -/
def get_cwd (s : ShellState) (ev : ExecEvent) (now el : Nat) :
    Except String (String × ShellState) :=
  match execute s "pwd" 5 ev now el with
  | Except.ok (r, s') =>
      if r.status = "success" then Except.ok (pyStrip r.stdout, s')
      else Except.ok (s.working_dir, s')
  | Except.error e => Except.error e

end ShellProcess

/-! ## Session store and manager -/

/-- Embeds `session/store.py`: in-memory mapping session id → shell process,
modelled as an association list whose keys are the dict keys (the
manager only ever inserts fresh uuid4 keys, so the key list is
duplicate-free; theorems that need this carry it as a hypothesis). -/
abbrev Store := List (String × ShellState)

/-- Embeds `SessionStore.get`: `self._sessions.get(session_id)`. -/
def storeGet : Store → String → Option ShellState
  | [], _ => none
  | (k, v) :: rest, sid => if k = sid then some v else storeGet rest sid

/-- Embeds `SessionStore.delete`: pop the entry with this key (and terminate
the popped shell, which is thereafter unreachable through the store). -/
def storeDelete : Store → String → Store
  | [], _ => []
  | (k, v) :: rest, sid =>
      if k = sid then storeDelete rest sid
      else (k, v) :: storeDelete rest sid

/-- Dict assignment `self._sessions[session_id] = shell`: replace the
binding when the key is present, append it otherwise. -/
def storeSet : Store → String → ShellState → Store
  | [], sid, sh => [(sid, sh)]
  | (k, v) :: rest, sid, sh =>
      if k = sid then (sid, sh) :: rest
      else (k, v) :: storeSet rest sid sh

/-- Embeds `SessionStore.get_all_ids`: `list(self._sessions.keys())`. -/
def storeIds (st : Store) : List String :=
  st.map Prod.fst

namespace SessionManager

/-- A `ShellProcess` immediately after `start()` succeeded: live
process, the configured working directory, `last_activity` set to the
current time. -/
def startedShell (workingDir : String) (now : Nat) : ShellState :=
  ⟨some true, workingDir, now⟩

/-- Embeds `SessionManager.create_session`: reject with the capacity
`RuntimeError` when the store already holds at least `max_sessions`
entries (no shell is spawned, the store is untouched); otherwise spawn
a shell and insert it under the fresh id.  The pair carries the
outcome and the resulting store. -/
def create_session (max_sessions : Nat) (workingDir : String)
    (now : Nat) (st : Store) (newId : String) :
    Except String String × Store :=
  if st.length ≥ max_sessions then
    (Except.error
      ("Maximum sessions limit reached (" ++ toString max_sessions ++ ")"),
     st)
  else
    (Except.ok newId, storeSet st newId (startedShell workingDir now))

/-- Embeds `SessionManager.get_session`: look the id up; when the entry exists
but the shell is dead, delete it and report absence.  Returns the
lookup outcome together with the store after any eviction. -/
def get_session (st : Store) (sid : String) :
    Option ShellState × Store :=
  match storeGet st sid with
  | none => (none, st)
  | some shell =>
      if ShellProcess.is_alive shell then (some shell, st)
      else (none, storeDelete st sid)

/-- One iteration of the loop body of
`SessionManager._cleanup_expired_sessions` for the id `sid`:
re-fetch the shell from the current store, delete it when its idle time
exceeds the timeout, otherwise delete it when it is dead, otherwise
leave the store unchanged. -/
def cleanupStep (timeout now : Nat) (st : Store) (sid : String) : Store :=
  match storeGet st sid with
  | none => st
  | some shell =>
      if ShellProcess.idle_time now shell > timeout then storeDelete st sid
      else if ShellProcess.is_alive shell = false then storeDelete st sid
      else st

/-- Embeds `SessionManager._cleanup_expired_sessions`: snapshot the id list,
then run the loop body over it, threading the store. -/
def cleanup_expired (timeout now : Nat) (st : Store) : Store :=
  (storeIds st).foldl (cleanupStep timeout now) st

end SessionManager

/-! ## Security validator and the execute_command tool handler -/

/-- The fields of `config.SecurityConfig` consumed by the validator. -/
structure SecurityConfig where
  enabled : Bool
  allowed_executables : List String
  blocked_patterns : List String
  audit_log : Bool
  working_directory : String
  deriving DecidableEq, Repr

/-- Python `command.split()`: split on whitespace runs, dropping empty
tokens. -/
def pySplitAux : List Char → List Char → List String
  | [], acc => if acc.isEmpty then [] else [⟨acc.reverse⟩]
  | c :: cs, acc =>
      if c.isWhitespace then
        if acc.isEmpty then pySplitAux cs []
        else ⟨acc.reverse⟩ :: pySplitAux cs []
      else pySplitAux cs (c :: acc)

def pySplit (s : String) : List String :=
  pySplitAux s.data []

/-- Embeds `SecurityValidator.validate_command`.  `search p c` abstracts
`re.compile(p).search(c) is not None` for a blocklist pattern `p`
against the command `c`.  Raising `ValueError msg` is modelled as
`Except.error msg`. -/
def validate_command (cfg : SecurityConfig)
    (search : String → String → Bool) (command : String) :
    Except String Unit :=
  if cfg.enabled = false then Except.ok ()
  else
    let command := pyStrip command
    if command.data.isEmpty then Except.error "Empty command"
    else
      let executable := (pySplit command).headD ""
      if cfg.allowed_executables ≠ [] ∧
          executable ∉ cfg.allowed_executables then
        Except.error
          ("Command \x27" ++ executable ++
           "\x27 is not in the allowlist. Allowed: " ++
           String.intercalate ", " cfg.allowed_executables)
      else
        match cfg.blocked_patterns.find? (fun p => search p command) with
        | some p => Except.error ("Command matches blocked pattern: " ++ p)
        | none => Except.ok ()

/-- The error dict built by `handle_execute_command` for a rejected or
unaddressable command (`execution_time` 0). -/
def errorResult (stderr command : String) : CommandResult :=
  ⟨"error", -1, "", stderr, command, 0⟩

/-- Embeds `tools/execute_command.handle_execute_command`: validate first and
surface a rejection as a structured error dict without touching any
session; then resolve the session, reporting the distinct
not-found/expired condition when absent; finally run the command on the
resolved shell (writing the mutated shell back).  Only the
`RuntimeError` of `ShellProcess.execute` itself would propagate
(modelled by `Except.error`). -/
def handle_execute_command (cfg : SecurityConfig)
    (search : String → String → Bool) (st : Store)
    (sid command : String) (timeout : Nat) (ev : ExecEvent)
    (now el : Nat) : Except String (CommandResult × Store) :=
  match validate_command cfg search command with
  | Except.error e =>
      Except.ok
        (errorResult ("Security validation failed: " ++ e) command, st)
  | Except.ok _ =>
      match SessionManager.get_session st sid with
      | (none, st') =>
          Except.ok (errorResult "Session not found or expired" command, st')
      | (some shell, st') =>
          match ShellProcess.execute shell command timeout ev now el with
          | Except.ok (r, shell') =>
              Except.ok (r, storeSet st' sid shell')
          | Except.error e => Except.error e

/-! ## Shared helper lemmas -/

/-- Branch equation of `execute` on a live session: the marker matched
and the exit-code probe returned `tok`. -/
lemma execute_eq_completed (s : ShellState) (cmd : String) (t : Nat)
    (out tok : String) (now el : Nat)
    (h : ShellProcess.is_alive s = true) :
    ShellProcess.execute s cmd t (ExecEvent.completed out tok) now el =
      Except.ok
        (⟨if (pyParseInt tok).getD 0 = 0 then "success" else "error",
          (pyParseInt tok).getD 0, pyStrip out, "", cmd, el⟩,
         { s with last_activity := now + el }) := by
  simp [ShellProcess.execute, h]

/-- Branch equation of `execute` on a live session: the marker wait
raised `pexpect.TIMEOUT` with `pending` bytes accumulated. -/
lemma execute_eq_timedOut (s : ShellState) (cmd : String) (t : Nat)
    (pending : String) (now el : Nat)
    (h : ShellProcess.is_alive s = true) :
    ShellProcess.execute s cmd t (ExecEvent.timedOut pending) now el =
      Except.ok
        (⟨"error", -1, pyStrip pending,
          "Command timed out after " ++ toString t ++ "s", cmd, el⟩,
         { s with last_activity := now + el }) := by
  simp [ShellProcess.execute, h]

/-- Branch equation of `execute` on a live session: the marker wait
raised `pexpect.EOF` (the child died). -/
lemma execute_eq_eof (s : ShellState) (cmd : String) (t : Nat)
    (now el : Nat) (h : ShellProcess.is_alive s = true) :
    ShellProcess.execute s cmd t ExecEvent.eof now el =
      Except.ok
        (⟨"error", -1, "", "Shell process terminated", cmd, el⟩,
         { s with process := some false, last_activity := now + el }) := by
  simp [ShellProcess.execute, h]

/-- Branch equation of `execute` on a live session: some other
exception escaped the worker thread. -/
lemma execute_eq_threw (s : ShellState) (cmd : String) (t : Nat)
    (msg : String) (now el : Nat)
    (h : ShellProcess.is_alive s = true) :
    ShellProcess.execute s cmd t (ExecEvent.threw msg) now el =
      Except.ok (⟨"error", -1, "", msg, cmd, el⟩, s) := by
  simp [ShellProcess.execute, h]

/-- A live session keeps `process = some true`. -/
lemma is_alive_process (s : ShellState)
    (h : ShellProcess.is_alive s = true) : s.process = some true := by
  unfold ShellProcess.is_alive at h
  cases hp : s.process with
  | none => rw [hp] at h; cases h
  | some b => cases b with
    | true => rfl
    | false => rw [hp] at h; cases h

/-- The timeout message is never the termination message (the two error
states stay distinguishable whatever the timeout value prints as). -/
lemma timeout_msg_ne_terminated (t : Nat) :
    "Command timed out after " ++ toString t ++ "s" ≠
      "Shell process terminated" := by
  intro h
  have hl := congrArg String.length h
  rw [String.length_append, String.length_append] at hl
  have h1 : ("Command timed out after " : String).length = 24 := rfl
  have h2 : ("s" : String).length = 1 := rfl
  have h3 : ("Shell process terminated" : String).length = 24 := rfl
  omega

/-- The derived status string is `"success"` exactly on exit code 0. -/
lemma status_of_exit_code (e : Int) :
    ((if e = 0 then "success" else "error") : String) = "success" ↔ e = 0 := by
  by_cases h : e = 0
  · simp [h]
  · constructor
    · intro hc
      rw [if_neg h] at hc
      exact absurd hc (by decide)
    · intro hc
      exact absurd hc h

/-- Concrete live session used by the evaluation witnesses. -/
def sampleAlive : ShellState := ⟨some true, "/workspace", 0⟩

/-- Concrete dead-but-present session used by the evaluation
witnesses. -/
def sampleDead : ShellState := ⟨some false, "/workspace", 0⟩

/-! ## Claim theorems -/

/-- C2. For every command run via `ShellProcess.execute` that
returns a `CommandResult`, the result's status is `"success"` if and
only if the observed exit code is 0; every nonzero exit code (including
the sentinel -1 used for timeout and process death) yields status
`"error"`. -/
theorem execute_status_iff_exit_zero (s : ShellState) (cmd : String)
    (t : Nat) (ev : ExecEvent) (now el : Nat) (r : CommandResult)
    (s' : ShellState)
    (h : ShellProcess.execute s cmd t ev now el = Except.ok (r, s')) :
    r.status = "success" ↔ r.exit_code = 0 := by
  by_cases ha : ShellProcess.is_alive s = true
  · cases ev with
    | completed out tok =>
        rw [execute_eq_completed s cmd t out tok now el ha] at h
        simp only [Except.ok.injEq, Prod.mk.injEq] at h
        have hs : r.status =
            (if (pyParseInt tok).getD 0 = 0 then "success" else "error") := by
          rw [← h.1]
        have he : r.exit_code = (pyParseInt tok).getD 0 := by rw [← h.1]
        rw [hs, he]
        exact status_of_exit_code _
    | timedOut pending =>
        rw [execute_eq_timedOut s cmd t pending now el ha] at h
        simp only [Except.ok.injEq, Prod.mk.injEq] at h
        have hs : r.status = "error" := by rw [← h.1]
        have he : r.exit_code = -1 := by rw [← h.1]
        rw [hs, he]
        decide
    | eof =>
        rw [execute_eq_eof s cmd t now el ha] at h
        simp only [Except.ok.injEq, Prod.mk.injEq] at h
        have hs : r.status = "error" := by rw [← h.1]
        have he : r.exit_code = -1 := by rw [← h.1]
        rw [hs, he]
        decide
    | threw msg =>
        rw [execute_eq_threw s cmd t msg now el ha] at h
        simp only [Except.ok.injEq, Prod.mk.injEq] at h
        have hs : r.status = "error" := by rw [← h.1]
        have he : r.exit_code = -1 := by rw [← h.1]
        rw [hs, he]
        decide
  · have ha' : ShellProcess.is_alive s = false := by
      cases hb : ShellProcess.is_alive s
      · rfl
      · exact absurd hb ha
    unfold ShellProcess.execute at h
    rw [ha'] at h
    simp at h

/-- Witness for C2 at a concrete successful command. -/
theorem execute_status_iff_exit_zero_witness :
    ShellProcess.execute sampleAlive "true" 30
        (ExecEvent.completed "ok" "0") 0 1 =
      Except.ok (⟨"success", 0, "ok", "", "true", 1⟩,
                 ⟨some true, "/workspace", 1⟩) ∧
    ((⟨"success", 0, "ok", "", "true", 1⟩ : CommandResult).status =
        "success" ↔
     (⟨"success", 0, "ok", "", "true", 1⟩ : CommandResult).exit_code = 0) :=
  ⟨by decide,
   execute_status_iff_exit_zero sampleAlive "true" 30
     (ExecEvent.completed "ok" "0") 0 1 ⟨"success", 0, "ok", "", "true", 1⟩
     ⟨some true, "/workspace", 1⟩ (by decide)⟩

/-- C3. For every execute call in which the prompt marker is
matched but the token returned by the internal exit-code probe
(`echo $?`) does not parse as an integer, the exit code is taken to be
0 and the result therefore has status `"success"`. -/
theorem execute_unparsable_token_success (s : ShellState) (cmd : String)
    (t : Nat) (out tok : String) (now el : Nat)
    (ha : ShellProcess.is_alive s = true) (hp : pyParseInt tok = none) :
    ShellProcess.execute s cmd t (ExecEvent.completed out tok) now el =
      Except.ok (⟨"success", 0, pyStrip out, "", cmd, el⟩,
                 { s with last_activity := now + el }) := by
  rw [execute_eq_completed s cmd t out tok now el ha, hp]
  rfl

/-- Witness for C3 at a concrete garbage probe token. -/
theorem execute_unparsable_token_success_witness :
    pyParseInt "xyz" = none ∧
    ShellProcess.execute sampleAlive "echo hi" 30
        (ExecEvent.completed "out" "xyz") 0 2 =
      Except.ok (⟨"success", 0, "out", "", "echo hi", 2⟩,
                 ⟨some true, "/workspace", 2⟩) :=
  ⟨by decide,
   execute_unparsable_token_success sampleAlive "echo hi" 30 "out" "xyz" 0 2
     (by decide) (by decide)⟩

/-- C8. For every session in any state, calling
`ShellProcess.terminate` twice in a row produces no error and leaves
`is_alive` false after each of the two calls; terminate on an
already-dead or never-started session is a no-op. -/
theorem terminate_idempotent_spec (s : ShellState) :
    ShellProcess.is_alive (ShellProcess.terminate s) = false ∧
    ShellProcess.is_alive
        (ShellProcess.terminate (ShellProcess.terminate s)) = false ∧
    ShellProcess.terminate (ShellProcess.terminate s) =
      ShellProcess.terminate s ∧
    (ShellProcess.is_alive s = false → ShellProcess.terminate s = s) := by
  obtain ⟨p, wd, la⟩ := s
  cases p with
  | none => simp [ShellProcess.terminate, ShellProcess.is_alive]
  | some b =>
      cases b <;> simp [ShellProcess.terminate, ShellProcess.is_alive]

/-- Witness for C8: a dead-but-present session, including the no-op
clause. -/
theorem terminate_idempotent_spec_witness :
    ShellProcess.is_alive (ShellProcess.terminate sampleDead) = false ∧
    ShellProcess.terminate sampleDead = sampleDead :=
  ⟨(terminate_idempotent_spec sampleDead).1,
   (terminate_idempotent_spec sampleDead).2.2.2 (by decide)⟩

/-- C1 counterexample. On a timeout, the returned stdout is the
whitespace-stripped partial output, so it is not always equal to the
raw partial bytes accumulated before the marker: with partial bytes
`"x\n"` the result's stdout is `"x"`. -/
theorem execute_timeout_stdout_stripped_counterexample :
    ShellProcess.execute sampleAlive "sleep 99" 30
        (ExecEvent.timedOut "x\n") 0 7 =
      Except.ok
        (⟨"error", -1, "x", "Command timed out after 30s", "sleep 99", 7⟩,
         ⟨some true, "/workspace", 7⟩) ∧
    ("x" : String) ≠ "x\n" :=
  ⟨by decide, by decide⟩

/-- C1 amended. On a running session: a timeout yields exit code
-1, stdout equal to the whitespace-stripped partial bytes accumulated
before the marker, a stderr message naming the timeout, and the session
stays alive; end-of-stream before the marker yields exit code -1 with
the distinct "process terminated" stderr and the session is no longer
alive; the two stderr messages always differ. -/
theorem execute_timeout_vs_termination (s : ShellState) (cmd : String)
    (t : Nat) (pending : String) (now el : Nat)
    (h : ShellProcess.is_alive s = true) :
    ShellProcess.execute s cmd t (ExecEvent.timedOut pending) now el =
      Except.ok
        (⟨"error", -1, pyStrip pending,
          "Command timed out after " ++ toString t ++ "s", cmd, el⟩,
         { s with last_activity := now + el }) ∧
    ShellProcess.is_alive { s with last_activity := now + el } = true ∧
    ShellProcess.execute s cmd t ExecEvent.eof now el =
      Except.ok
        (⟨"error", -1, "", "Shell process terminated", cmd, el⟩,
         { s with process := some false, last_activity := now + el }) ∧
    ShellProcess.is_alive
        { s with process := some false, last_activity := now + el } = false ∧
    ("Command timed out after " ++ toString t ++ "s" : String) ≠
      "Shell process terminated" := by
  refine ⟨execute_eq_timedOut s cmd t pending now el h, ?_,
          execute_eq_eof s cmd t now el h, ?_,
          timeout_msg_ne_terminated t⟩
  · have hp := is_alive_process s h
    simp [ShellProcess.is_alive, hp]
  · simp [ShellProcess.is_alive]

/-- Witness for C1 (amended) at a concrete timeout/termination pair. -/
theorem execute_timeout_vs_termination_witness :
    ShellProcess.execute sampleAlive "c" 30 (ExecEvent.timedOut " y") 0 3 =
      Except.ok
        (⟨"error", -1, "y", "Command timed out after 30s", "c", 3⟩,
         ⟨some true, "/workspace", 3⟩) ∧
    ShellProcess.is_alive (⟨some true, "/workspace", 3⟩ : ShellState) =
      true ∧
    ShellProcess.execute sampleAlive "c" 30 ExecEvent.eof 0 3 =
      Except.ok
        (⟨"error", -1, "", "Shell process terminated", "c", 3⟩,
         ⟨some false, "/workspace", 3⟩) ∧
    ShellProcess.is_alive (⟨some false, "/workspace", 3⟩ : ShellState) =
      false ∧
    ("Command timed out after 30s" : String) ≠ "Shell process terminated" :=
  execute_timeout_vs_termination sampleAlive "c" 30 " y" 0 3 (by decide)

/-- C10 counterexample. The timeout path returns the
whitespace-stripped partial bytes, not the raw accumulated partial
bytes: with partial bytes `" z\n"` the stdout is `"z"`. -/
theorem execute_eof_contrast_counterexample :
    ShellProcess.execute sampleAlive "cat" 30
        (ExecEvent.timedOut " z\n") 0 4 =
      Except.ok
        (⟨"error", -1, "z", "Command timed out after 30s", "cat", 4⟩,
         ⟨some true, "/workspace", 4⟩) ∧
    ("z" : String) ≠ " z\n" :=
  ⟨by decide, by decide⟩

/-- C10 amended. When the underlying process terminates
(end-of-stream) before the marker reappears, the returned stdout is the
empty string — partial output received before the process died is
discarded — in contrast to the timeout path, which returns the
whitespace-stripped accumulated partial bytes as stdout. -/
theorem execute_eof_empty_stdout (s : ShellState) (cmd : String)
    (t : Nat) (pending : String) (now el : Nat)
    (h : ShellProcess.is_alive s = true) :
    ShellProcess.execute s cmd t ExecEvent.eof now el =
      Except.ok
        (⟨"error", -1, "", "Shell process terminated", cmd, el⟩,
         { s with process := some false, last_activity := now + el }) ∧
    ShellProcess.execute s cmd t (ExecEvent.timedOut pending) now el =
      Except.ok
        (⟨"error", -1, pyStrip pending,
          "Command timed out after " ++ toString t ++ "s", cmd, el⟩,
         { s with last_activity := now + el }) :=
  ⟨execute_eq_eof s cmd t now el h,
   execute_eq_timedOut s cmd t pending now el h⟩

/-- Witness for C10 (amended): the process dies mid-command and the
result's stdout is empty. -/
theorem execute_eof_empty_stdout_witness :
    ShellProcess.execute sampleAlive "make" 60 ExecEvent.eof 0 9 =
      Except.ok
        (⟨"error", -1, "", "Shell process terminated", "make", 9⟩,
         ⟨some false, "/workspace", 9⟩) ∧
    ShellProcess.execute sampleAlive "make" 60
        (ExecEvent.timedOut "partway") 0 9 =
      Except.ok
        (⟨"error", -1, "partway", "Command timed out after 60s", "make", 9⟩,
         ⟨some true, "/workspace", 9⟩) :=
  execute_eof_empty_stdout sampleAlive "make" 60 "partway" 0 9
    (by decide)

/-- C9 counterexample. On a session whose process is dead,
`get_cwd` does not fall back to the recorded working directory: the
`RuntimeError` raised by the inner `execute("pwd")` propagates out of
`get_cwd` uncaught. -/
theorem get_cwd_dead_session_counterexample :
    ShellProcess.get_cwd sampleDead (ExecEvent.timedOut "") 0 1 =
      Except.error "Shell process is not running" :=
  by decide

/-- C9 amended. On a running session, `get_cwd` never fails: the
probe `execute("pwd", timeout=5)` always returns a result, and
`get_cwd` returns the probe's stripped stdout when the probe result has
status `"success"` and the session's recorded initial working directory
otherwise.  (On a non-running session the probe's `RuntimeError`
propagates, so the fallback does not cover that state.) -/
theorem get_cwd_fallback (s : ShellState) (ev : ExecEvent) (now el : Nat)
    (h : ShellProcess.is_alive s = true) :
    (∀ r : CommandResult, ∀ s' : ShellState,
       ShellProcess.execute s "pwd" 5 ev now el = Except.ok (r, s') →
       ShellProcess.get_cwd s ev now el =
         Except.ok (if r.status = "success" then (pyStrip r.stdout, s')
                    else (s.working_dir, s'))) ∧
    (∃ r : CommandResult, ∃ s' : ShellState,
       ShellProcess.execute s "pwd" 5 ev now el = Except.ok (r, s')) := by
  constructor
  · intro r s' hex
    unfold ShellProcess.get_cwd
    rw [hex]
    dsimp only
    by_cases hs : r.status = "success"
    · rw [if_pos hs, if_pos hs]
    · rw [if_neg hs, if_neg hs]
  · cases ev with
    | completed out tok =>
        exact ⟨_, _, execute_eq_completed s "pwd" 5 out tok now el h⟩
    | timedOut pending =>
        exact ⟨_, _, execute_eq_timedOut s "pwd" 5 pending now el h⟩
    | eof => exact ⟨_, _, execute_eq_eof s "pwd" 5 now el h⟩
    | threw msg => exact ⟨_, _, execute_eq_threw s "pwd" 5 msg now el h⟩

/-- Witness for C9 (amended): a failed probe (timeout) on a live
session falls back to the recorded working directory. -/
theorem get_cwd_fallback_witness :
    ShellProcess.get_cwd sampleAlive (ExecEvent.timedOut "junk") 0 1 =
      Except.ok ("/workspace", (⟨some true, "/workspace", 1⟩ : ShellState)) :=
  by
    have h :=
      (get_cwd_fallback sampleAlive (ExecEvent.timedOut "junk") 0 1
          (by decide)).1
        ⟨"error", -1, "junk", "Command timed out after 5s", "pwd", 1⟩
        ⟨some true, "/workspace", 1⟩ (by decide)
    rw [h]
    decide

/-- Deleting a key removes it from the store. -/
lemma storeGet_delete_self (st : Store) (sid : String) :
    storeGet (storeDelete st sid) sid = none := by
  induction st with
  | nil => rfl
  | cons e rest ih =>
      obtain ⟨k, v⟩ := e
      by_cases hk : k = sid
      · simp [storeDelete, hk, ih]
      · simp [storeDelete, storeGet, hk, ih]

/-- Dict assignment grows the store by at most one entry. -/
lemma storeSet_length_le (st : Store) (sid : String) (sh : ShellState) :
    (storeSet st sid sh).length ≤ st.length + 1 := by
  induction st with
  | nil => simp [storeSet]
  | cons e rest ih =>
      obtain ⟨k, v⟩ := e
      by_cases hk : k = sid
      · simp [storeSet, hk]
      · simp only [storeSet, if_neg hk, List.length_cons]
        omega

/-- A pattern-search function that never matches; used by concrete
witnesses whose blocklist is empty. -/
def searchNone : String → String → Bool := fun _ _ => false

/-- Concrete security configuration with validation enabled and no
allowlist or blocklist. -/
def cfgOn : SecurityConfig := ⟨true, [], [], true, "/workspace"⟩

/-- Concrete security configuration with validation disabled. -/
def cfgOff : SecurityConfig := ⟨false, [], [], true, "/workspace"⟩

/-- C4. For every command that the security validator rejects, the
`execute_command` operation returns a structured result with status
`"error"`, exit code -1, empty stdout, and a stderr message naming the
security validation failure; no exception propagates across the
protocol boundary (the handler returns normally) and the session store
is left untouched — the shell session is never invoked for that
command. -/
theorem handle_execute_command_security_rejected
    (cfg : SecurityConfig) (search : String → String → Bool) (st : Store)
    (sid cmd : String) (t : Nat) (ev : ExecEvent) (now el : Nat)
    (e : String)
    (hrej : validate_command cfg search cmd = Except.error e) :
    handle_execute_command cfg search st sid cmd t ev now el =
      Except.ok
        (⟨"error", -1, "", "Security validation failed: " ++ e, cmd, 0⟩,
         st) := by
  unfold handle_execute_command
  rw [hrej]
  rfl

/-- Witness for C4: the empty command is rejected and the handler
returns the structured security error with the store unchanged. -/
theorem handle_execute_command_security_rejected_witness :
    validate_command cfgOn searchNone "" = Except.error "Empty command" ∧
    handle_execute_command cfgOn searchNone [("a", sampleAlive)] "a" "" 30
        (ExecEvent.completed "out" "0") 0 1 =
      Except.ok
        (⟨"error", -1, "",
          "Security validation failed: Empty command", "", 0⟩,
         [("a", sampleAlive)]) :=
  ⟨by decide,
   handle_execute_command_security_rejected cfgOn searchNone
     [("a", sampleAlive)] "a" "" 30 (ExecEvent.completed "out" "0") 0 1
     "Empty command" (by decide)⟩

/-- C5. `get_session` returns none when the id is absent; if the id
is present but the shell is not alive, it deletes the entry and returns
none, so a caller never observes a dead session handle as found; and
`handle_execute_command` on an id that resolves to no session returns
the structured "Session not found or expired" error, distinct from
command-level errors. -/
theorem get_session_not_found_spec (st : Store) (sid : String) :
    (storeGet st sid = none →
       SessionManager.get_session st sid = (none, st)) ∧
    (∀ sh : ShellState, storeGet st sid = some sh →
       ShellProcess.is_alive sh = false →
       SessionManager.get_session st sid = (none, storeDelete st sid) ∧
       storeGet (storeDelete st sid) sid = none) ∧
    (∀ (cfg : SecurityConfig) (search : String → String → Bool)
       (cmd : String) (t : Nat) (ev : ExecEvent) (now el : Nat),
       validate_command cfg search cmd = Except.ok () →
       (SessionManager.get_session st sid).1 = none →
       handle_execute_command cfg search st sid cmd t ev now el =
         Except.ok
           (⟨"error", -1, "", "Session not found or expired", cmd, 0⟩,
            (SessionManager.get_session st sid).2)) := by
  refine ⟨?_, ?_, ?_⟩
  · intro h
    unfold SessionManager.get_session
    rw [h]
  · intro sh hg hdead
    constructor
    · unfold SessionManager.get_session
      rw [hg]
      dsimp only
      rw [if_neg (by rw [hdead]; exact Bool.false_ne_true)]
    · exact storeGet_delete_self st sid
  · intro cfg search cmd t ev now el hval h1
    unfold handle_execute_command
    rw [hval]
    have hgs : SessionManager.get_session st sid =
        (none, (SessionManager.get_session st sid).2) := by
      rw [← h1]
    rw [hgs]
    rfl

/-- Witness for C5: a dead session entry is evicted on lookup and the
handler reports the distinct not-found condition. -/
theorem get_session_not_found_spec_witness :
    SessionManager.get_session [("a", sampleDead)] "a" =
      (none, ([] : Store)) ∧
    storeGet ([] : Store) "a" = none ∧
    handle_execute_command cfgOff searchNone [("a", sampleDead)] "a" "ls"
        30 ExecEvent.eof 0 0 =
      Except.ok
        (⟨"error", -1, "", "Session not found or expired", "ls", 0⟩,
         ([] : Store)) :=
  ⟨((get_session_not_found_spec [("a", sampleDead)] "a").2.1 sampleDead
      (by decide) (by decide)).1,
   ((get_session_not_found_spec [("a", sampleDead)] "a").2.1 sampleDead
      (by decide) (by decide)).2,
   (get_session_not_found_spec [("a", sampleDead)] "a").2.2 cfgOff
     searchNone "ls" 30 ExecEvent.eof 0 0 (by decide) (by decide)⟩

/-- C6. A `create_session` call made while the store already holds
at least `max_sessions` entries fails with the capacity error and
leaves the store unchanged; a call made while the store holds fewer
succeeds, inserting one entry, and the resulting registry size never
exceeds `max_sessions`. -/
theorem create_session_capacity (N : Nat) (wd : String) (now : Nat)
    (st : Store) (newId : String) :
    (st.length ≥ N →
       SessionManager.create_session N wd now st newId =
         (Except.error
            ("Maximum sessions limit reached (" ++ toString N ++ ")"),
          st)) ∧
    (st.length < N →
       (SessionManager.create_session N wd now st newId).1 =
         Except.ok newId ∧
       (SessionManager.create_session N wd now st newId).2 =
         storeSet st newId (SessionManager.startedShell wd now) ∧
       (SessionManager.create_session N wd now st newId).2.length ≤ N) := by
  constructor
  · intro h
    unfold SessionManager.create_session
    rw [if_pos h]
  · intro h
    have hn : ¬ st.length ≥ N := not_le.mpr h
    unfold SessionManager.create_session
    rw [if_neg hn]
    refine ⟨rfl, rfl, ?_⟩
    dsimp only
    have hb := storeSet_length_le st newId (SessionManager.startedShell wd now)
    omega

/-- Witness for C6: with capacity 1, creating in the empty store
succeeds and a second create is rejected without touching the store. -/
theorem create_session_capacity_witness :
    (SessionManager.create_session 1 "/workspace" 0 [] "a").1 =
      Except.ok "a" ∧
    (SessionManager.create_session 1 "/workspace" 0 [] "a").2.length ≤ 1 ∧
    SessionManager.create_session 1 "/workspace" 0
        [("a", SessionManager.startedShell "/workspace" 0)] "b" =
      (Except.error "Maximum sessions limit reached (1)",
       [("a", SessionManager.startedShell "/workspace" 0)]) :=
  ⟨((create_session_capacity 1 "/workspace" 0 [] "a").2 (by decide)).1,
   ((create_session_capacity 1 "/workspace" 0 [] "a").2 (by decide)).2.2,
   (create_session_capacity 1 "/workspace" 0
       [("a", SessionManager.startedShell "/workspace" 0)] "b").1
     (by decide)⟩

/-- Deleting one key leaves every other key's entry unchanged. -/
lemma storeGet_delete_ne (st : Store) (sid k : String) (h : k ≠ sid) :
    storeGet (storeDelete st sid) k = storeGet st k := by
  induction st with
  | nil => rfl
  | cons e rest ih =>
      obtain ⟨k', v⟩ := e
      by_cases h1 : k' = sid
      · have hk : ¬ k' = k := fun hh => h (hh ▸ h1)
        simp only [storeDelete, if_pos h1, storeGet, if_neg hk]
        exact ih
      · by_cases h2 : k' = k
        · simp only [storeDelete, if_neg h1, storeGet, if_pos h2]
        · simp only [storeDelete, if_neg h1, storeGet, if_neg h2]
          exact ih

/-- The cleanup loop body for one id touches no other id's entry. -/
lemma cleanupStep_ne (t now : Nat) (st : Store) (sid k : String)
    (h : sid ≠ k) :
    storeGet (SessionManager.cleanupStep t now st sid) k =
      storeGet st k := by
  unfold SessionManager.cleanupStep
  cases hg : storeGet st sid with
  | none => rfl
  | some sh =>
      dsimp only
      by_cases h1 : ShellProcess.idle_time now sh > t
      · rw [if_pos h1]
        exact storeGet_delete_ne st sid k (Ne.symm h)
      · rw [if_neg h1]
        by_cases h2 : ShellProcess.is_alive sh = false
        · rw [if_pos h2]
          exact storeGet_delete_ne st sid k (Ne.symm h)
        · rw [if_neg h2]

/-- The cleanup loop body at an id holding `sh` keeps the entry exactly
when `sh` is within the idle timeout and alive. -/
lemma cleanupStep_self (t now : Nat) (st : Store) (k : String)
    (sh : ShellState) (hg : storeGet st k = some sh) :
    storeGet (SessionManager.cleanupStep t now st k) k =
      (if ShellProcess.idle_time now sh ≤ t ∧
          ShellProcess.is_alive sh = true
       then some sh else none) := by
  unfold SessionManager.cleanupStep
  rw [hg]
  dsimp only
  by_cases h1 : ShellProcess.idle_time now sh > t
  · rw [if_pos h1, storeGet_delete_self,
        if_neg (fun hc => (not_le.mpr h1) hc.1)]
  · rw [if_neg h1]
    by_cases h2 : ShellProcess.is_alive sh = false
    · rw [if_pos h2, storeGet_delete_self,
          if_neg (fun hc => by rw [h2] at hc; exact Bool.false_ne_true hc.2)]
    · have halive : ShellProcess.is_alive sh = true := by
        cases hb : ShellProcess.is_alive sh with
        | false => exact absurd hb h2
        | true => rfl
      rw [if_neg h2, if_pos ⟨not_lt.mp h1, halive⟩, hg]

/-- Folding the cleanup body over ids not containing `k` leaves `k`'s
entry unchanged. -/
lemma foldl_cleanup_not_mem (t now : Nat) (k : String) :
    ∀ (ids : List String) (st : Store), k ∉ ids →
    storeGet (ids.foldl (SessionManager.cleanupStep t now) st) k =
      storeGet st k := by
  intro ids
  induction ids with
  | nil => intro st _; rfl
  | cons sid rest ih =>
      intro st h
      have hne : sid ≠ k := by
        intro hh
        exact h (by rw [hh]; exact List.mem_cons_self _ _)
      have hrest : k ∉ rest := fun hm => h (List.mem_cons_of_mem _ hm)
      simp only [List.foldl_cons]
      rw [ih (SessionManager.cleanupStep t now st sid) hrest]
      exact cleanupStep_ne t now st sid k hne

/-- Folding the cleanup body over duplicate-free ids containing `k`,
starting from a store holding `sh` at `k`, keeps `k`'s entry exactly
when `sh` is within the idle timeout and alive. -/
lemma foldl_cleanup_mem (t now : Nat) (k : String) (sh : ShellState) :
    ∀ (ids : List String) (st : Store), ids.Nodup → k ∈ ids →
    storeGet st k = some sh →
    storeGet (ids.foldl (SessionManager.cleanupStep t now) st) k =
      (if ShellProcess.idle_time now sh ≤ t ∧
          ShellProcess.is_alive sh = true
       then some sh else none) := by
  intro ids
  induction ids with
  | nil => intro st _ hk _; cases hk
  | cons sid rest ih =>
      intro st hnd hk hg
      simp only [List.foldl_cons]
      by_cases he : sid = k
      · subst he
        have hrest : sid ∉ rest := (List.nodup_cons.mp hnd).1
        rw [foldl_cleanup_not_mem t now sid rest
              (SessionManager.cleanupStep t now st sid) hrest]
        exact cleanupStep_self t now st sid sh hg
      · have hk' : k ∈ rest := by
          rcases List.mem_cons.mp hk with h1 | h1
          · exact absurd h1.symm he
          · exact h1
        have hg' : storeGet (SessionManager.cleanupStep t now st sid) k =
            some sh := by
          rw [cleanupStep_ne t now st sid k he]
          exact hg
        exact ih (SessionManager.cleanupStep t now st sid)
          (List.nodup_cons.mp hnd).2 hk' hg'

/-- A key holding an entry is among the store's ids. -/
lemma storeGet_mem_ids (st : Store) (k : String) (sh : ShellState)
    (h : storeGet st k = some sh) : k ∈ storeIds st := by
  induction st with
  | nil => cases h
  | cons e rest ih =>
      obtain ⟨k', v⟩ := e
      by_cases h1 : k' = k
      · simp [storeIds, h1]
      · simp only [storeGet, if_neg h1] at h
        have := ih h
        simp only [storeIds, List.map_cons, List.mem_cons]
        exact Or.inr (by simpa [storeIds] using this)

/-- C7. After one run of the cleanup sweep, every registered
session whose idle time exceeds the configured timeout, or whose
liveness probe reports not-alive, has been removed from the registry
(its shell terminated on deletion); every alive session with idle time
at or below the timeout is still present. -/
theorem cleanup_expired_evicts_exactly (t now : Nat) (st : Store)
    (hnd : (storeIds st).Nodup) (sid : String) (sh : ShellState)
    (hg : storeGet st sid = some sh) :
    storeGet (SessionManager.cleanup_expired t now st) sid =
      (if ShellProcess.idle_time now sh ≤ t ∧
          ShellProcess.is_alive sh = true
       then some sh else none) := by
  unfold SessionManager.cleanup_expired
  exact foldl_cleanup_mem t now sid sh (storeIds st) st hnd
    (storeGet_mem_ids st sid sh hg) hg

/-- Concrete registry for the C7 witness: an idle-expired session, a
fresh alive session, and a fresh dead session. -/
def sweepStore : Store :=
  [("a", ⟨some true, "/workspace", 0⟩),
   ("b", ⟨some true, "/workspace", 95⟩),
   ("c", ⟨some false, "/workspace", 95⟩)]

/-- Witness for C7 at timeout 10, current time 100: the expired and the
dead sessions are gone after the sweep, the fresh alive one remains. -/
theorem cleanup_expired_evicts_exactly_witness :
    storeGet (SessionManager.cleanup_expired 10 100 sweepStore) "a" =
      none ∧
    storeGet (SessionManager.cleanup_expired 10 100 sweepStore) "b" =
      some ⟨some true, "/workspace", 95⟩ ∧
    storeGet (SessionManager.cleanup_expired 10 100 sweepStore) "c" =
      none := by
  refine ⟨?_, ?_, ?_⟩
  · have h := cleanup_expired_evicts_exactly 10 100 sweepStore (by decide)
      "a" ⟨some true, "/workspace", 0⟩ (by decide)
    rw [if_neg (by decide)] at h
    exact h
  · have h := cleanup_expired_evicts_exactly 10 100 sweepStore (by decide)
      "b" ⟨some true, "/workspace", 95⟩ (by decide)
    rw [if_pos (by decide)] at h
    exact h
  · have h := cleanup_expired_evicts_exactly 10 100 sweepStore (by decide)
      "c" ⟨some false, "/workspace", 95⟩ (by decide)
    rw [if_neg (by decide)] at h
    exact h

end McpShell
